import Mathlib

/-!
Shallow embedding of the create-tsi scaffolding core:
the environment-file renderer of src/helpers/env-variables.ts and the
template copier of src/helpers/copy.ts, with theorems checking the
specification's claims about them.
-/

/-- Splits a character list at every occurrence of the character c.
Model of JavaScript String.prototype.split with a one-character separator;
the result is never the empty list. -/
def splitOnChar (c : Char) : List Char → List (List Char)
  | [] => [[]]
  | a :: rest =>
    match splitOnChar c rest with
    | [] => [[]]
    | h :: t => if a = c then [] :: h :: t else (a :: h) :: t

/-- Joins a list of strings with a separator between consecutive elements.
Model of JavaScript Array.prototype.join. -/
def joinSep (sep : String) : List String → String
  | [] => ""
  | [a] => a
  | a :: b :: t => a ++ sep ++ joinSep sep (b :: t)

/-- Model of the JavaScript call s.replaceAll with the one-character pattern
a newline (env-variables.ts line 24 uses it with replacement rep): replacing
every occurrence equals splitting on the newline and joining with rep. -/
def replaceAllNl (rep : String) (s : String) : String :=
  joinSep rep ((splitOnChar '\n' s.data).map String.mk)

/-- One entry of the environment-variable list: the EnvVar type of
env-variables.ts lines 13-17; every field is optional. -/
structure EnvVar where
  name : Option String := none
  description : Option String := none
  value : Option String := none
  deriving DecidableEq, Repr

/-- JavaScript truthiness of an optional string field: the field was supplied
and is not the empty string. -/
def truthy : Option String → Bool
  | none => false
  | some s => !(s == "")

/-- The description part one entry contributes (env-variables.ts lines 23-25):
when the description is truthy, the description with every newline replaced so
each of its lines carries a leading comment marker, then a newline. -/
def descRender (env : EnvVar) : String :=
  if truthy env.description then
    "# " ++ replaceAllNl "\n# " (env.description.getD "") ++ "\n"
  else ""

/-- The assignment part one entry contributes (env-variables.ts lines 26-30):
for a truthy name, either the assignment line or the commented placeholder,
each followed by a blank line; nothing otherwise. -/
def nameValueRender (env : EnvVar) : String :=
  if truthy env.name then
    if truthy env.value then
      (env.name.getD "") ++ "=" ++ (env.value.getD "") ++ "\n\n"
    else
      "# " ++ (env.name.getD "") ++ "=\n\n"
  else ""

/-- The text one entry contributes to the rendered output: the body of the
reduce callback of env-variables.ts lines 21-30 without the accumulator. -/
def renderOne (env : EnvVar) : String :=
  descRender env ++ nameValueRender env

/-- renderEnvVar of env-variables.ts lines 19-33: a left fold over the entry
sequence, starting from the empty string, appending each entry's text. -/
def renderEnvVar (envVars : List EnvVar) : String :=
  envVars.foldl (fun prev env => prev ++ renderOne env) ""

/-- getVectorDBEnvs of env-variables.ts lines 35-103. The TemplateVectorDB
union type lives in src/helpers/types.ts, which is not among the sources, so
the identifiers are modelled as plain strings; the switch statement compares
the argument against the four literal cases and falls through to an empty
list in the default arm. -/
def getVectorDBEnvs (vectorDb : String) : List EnvVar :=
  if vectorDb = "mongo" then
    [ { name := some "MONGO_URI",
        description := some "For generating a connection URI, see https://docs.timescale.com/use-timescale/latest/services/create-a-service\nThe MongoDB connection URI." },
      { name := some "MONGODB_DATABASE" },
      { name := some "MONGODB_VECTORS" },
      { name := some "MONGODB_VECTOR_INDEX" } ]
  else if vectorDb = "pg" then
    [ { name := some "PG_CONNECTION_STRING",
        description := some "For generating a connection URI, see https://docs.timescale.com/use-timescale/latest/services/create-a-service\nThe PostgreSQL connection string." } ]
  else if vectorDb = "pinecone" then
    [ { name := some "PINECONE_API_KEY",
        description := some "Configuration for Pinecone vector store\nThe Pinecone API key." },
      { name := some "PINECONE_ENVIRONMENT" },
      { name := some "PINECONE_INDEX_NAME" } ]
  else if vectorDb = "milvus" then
    [ { name := some "MILVUS_ADDRESS",
        description := some "The address of the Milvus server. Eg: http://localhost:19530",
        value := some "http://localhost:19530" },
      { name := some "MILVUS_COLLECTION",
        description := some "The name of the Milvus collection to store the vectors.",
        value := some "llamacollection" },
      { name := some "MILVUS_USERNAME",
        description := some "The username to access the Milvus server." },
      { name := some "MILVUS_PASSWORD",
        description := some "The password to access the Milvus server." } ]
  else []

/-- The options record of createBackendEnvFile (env-variables.ts lines
107-116). The TemplateFramework and TemplateVectorDB unions of the missing
types.ts are modelled as strings; dataSources is omitted because the
function body never reads it. -/
structure BackendOpts where
  openAiKey : Option String := none
  llamaCloudKey : Option String := none
  vectorDb : Option String := none
  model : Option String := none
  embeddingModel : Option String := none
  framework : Option String := none
  port : Option Nat := none

/-- JavaScript a || b for an optional string a: the fallback b is taken when
a is absent or empty (falsy). -/
def jsOrElse (a : Option String) (b : String) : String :=
  match a with
  | some s => if s == "" then b else s
  | none => b

/-- The defaultEnvs list of createBackendEnvFile (env-variables.ts lines
120-150), ending with the vector-database block spread in when opts.vectorDb
is truthy. The render flag carried by the first two TS entries has no
counterpart in the EnvVar type the renderer reads and is dropped. -/
def defaultEnvs (opts : BackendOpts) : List EnvVar :=
  [ { name := some "MODEL",
      description := some "The name of LLM model to use.",
      value := some (jsOrElse opts.model "gpt-3.5-turbo") },
    { name := some "TSI_API_KEY",
      description := some "The T-Systems API key to use.",
      value := opts.openAiKey },
    { name := some "TSI_API_BASE_URL",
      description := some "The T-Systems API base URL.",
      value := some "https://llm-server.llmhub.t-systems.net/v2" },
    { name := some "TSI_EMBED_API_BASE_URL",
      description := some "The T-Systems embedding API base URL.",
      value := some "https://llm-server.llmhub.t-systems.net/v2" },
    { name := some "LLAMA_CLOUD_API_KEY",
      description := some "The Llama Cloud API key.",
      value := opts.llamaCloudKey } ]
  ++ (if truthy opts.vectorDb then getVectorDBEnvs (opts.vectorDb.getD "") else [])

/-- The FastAPI-specific descriptors appended when opts.framework is
"fastapi" (env-variables.ts lines 155-201). -/
def fastapiEnvs (opts : BackendOpts) : List EnvVar :=
  [ { name := some "APP_HOST",
      description := some "The address to start the backend app.",
      value := some "0.0.0.0" },
    { name := some "APP_PORT",
      description := some "The port to start the backend app.",
      value := some (jsOrElse (opts.port.map toString) "8000") },
    { name := some "EMBEDDING_MODEL",
      description := some "Name of the embedding model to use.",
      value := opts.embeddingModel },
    { name := some "EMBEDDING_DIM",
      description := some "Dimension of the embedding model to use." },
    { name := some "LLM_TEMPERATURE",
      description := some "Temperature for sampling from the model." },
    { name := some "LLM_MAX_TOKENS",
      description := some "Maximum number of tokens to generate." },
    { name := some "TOP_K",
      description := some "The number of similar embeddings to return when retrieving documents.",
      value := some "3" },
    { name := some "SYSTEM_PROMPT",
      description := some "Custom system prompt.\nExample:\nSYSTEM_PROMPT=\"\nWe have provided context information below.\n---------------------\n{context_str}\n---------------------\nGiven this information, please answer the question: {query_str}\n\"" } ]

/-- The empty descriptor literal appended for frameworks that add no extra
variables (env-variables.ts line 214). -/
def emptyEnvVar : EnvVar := { name := none, description := none, value := none }

/-- The extra descriptor added when opts.framework is "nextjs"
(env-variables.ts lines 208-213). -/
def nextjsEnv (opts : BackendOpts) : EnvVar :=
  { name := some "NEXT_PUBLIC_MODEL",
    description := some "The LLM model to use (hardcode to front-end artifact).",
    value := some (jsOrElse opts.model "gpt-3.5-turbo") }

/-- The full envVars sequence assembled by createBackendEnvFile
(env-variables.ts lines 151-217). -/
def backendEnvVars (opts : BackendOpts) : List EnvVar :=
  if opts.framework = some "fastapi" then
    defaultEnvs opts ++ fastapiEnvs opts
  else
    defaultEnvs opts ++
      [if opts.framework = some "nextjs" then nextjsEnv opts else emptyEnvVar]

/-- The .env text createBackendEnvFile renders and writes (env-variables.ts
line 219); the file write itself is I/O and not modelled. -/
def backendEnvContent (opts : BackendOpts) : String :=
  renderEnvVar (backendEnvVars opts)

/-- The src argument of copy (copy.ts line 19): a single pattern string or a
list of pattern strings. -/
inductive Src where
  | one : String → Src
  | many : List String → Src

/-- The normalization of src at copy.ts line 23: a single pattern becomes a
one-element list. -/
def normalizeSrc : Src → List String
  | .one s => [s]
  | .many l => l

/-- The identity function of copy.ts line 16, the default rename. -/
def identity (x : String) : String := x

/-- The CopyOption record of copy.ts lines 10-14 together with the defaults
destructured at line 21. -/
structure CopyOption where
  cwd : Option String := none
  rename : String → String := identity
  parents : Bool := true

/-- Splits a path string into its "/"-separated segments. -/
def pathSegs (p : String) : List String :=
  (splitOnChar '/' p.data).map String.mk

namespace NodePath

/-- Model of Node's path.basename for the relative slash-separated paths glob
produces: the last "/"-separated segment. -/
def basename (p : String) : String :=
  (pathSegs p).getLastD ""

/-- Model of Node's path.dirname for relative paths: everything before the
last separator, or "." when the path has no separator. -/
def dirname (p : String) : String :=
  if (pathSegs p).length ≤ 1 then "." else joinSep "/" (pathSegs p).dropLast

/-- Model of Node's path.join for relative paths: concatenate all segments
and normalize away empty and "." segments. -/
def join (parts : List String) : String :=
  let segs := (parts.flatMap pathSegs).filter (fun s => !(s == "") && !(s == "."))
  if segs.isEmpty then "." else joinSep "/" segs

/-- Model of Node's path.resolve base p restricted to the shapes copy uses:
an already-absolute p is kept, otherwise p is joined onto base. -/
def resolve (base p : String) : String :=
  if p.data.head? = some '/' then p else join [base, p]

end NodePath

/-- The destination root of copy.ts line 36: the destination resolved against
the working directory when one is given, the destination as given otherwise. -/
def destRootOf (cwd : Option String) (dest : String) : String :=
  match cwd with
  | some c => NodePath.resolve c dest
  | none => dest

/-- The absolute source path of copy.ts line 43, resolved the same way. -/
def fromPathOf (cwd : Option String) (p : String) : String :=
  match cwd with
  | some c => NodePath.resolve c p
  | none => p

/-- The destination path computed for one matched file (copy.ts lines 44-46):
with parents, destination root joined with the file's directory and the
renamed base filename; without parents, destination root joined with the
renamed base filename. -/
def toPathOf (opts : CopyOption) (dest : String) (p : String) : String :=
  if opts.parents then
    NodePath.join [destRootOf opts.cwd dest, NodePath.dirname p,
      opts.rename (NodePath.basename p)]
  else
    NodePath.join [destRootOf opts.cwd dest, opts.rename (NodePath.basename p)]

/-- One filesystem effect copy performs for a matched file: the recursive
directory creation of copy.ts line 49 or the file copy of line 51. -/
inductive FSAction where
  | mkdirRecursive : String → FSAction
  | copyFile : String → String → FSAction
  deriving DecidableEq, Repr

/-- The copy function of copy.ts lines 18-54 as a pure plan. The glob
argument stands for the filesystem's pattern expansion (patterns and working
directory to matched relative paths, copy.ts lines 29-34); the result is
either the TypeError thrown at line 26 — raised before glob is ever
consulted, which is why the result in that case is the same for every glob —
or the list of filesystem actions the Promise.all of lines 38-53 performs,
two per matched file. -/
def copy (glob : List String → Option String → List String)
    (src : Src) (dest : String) (opts : CopyOption) :
    Except String (List FSAction) :=
  if (normalizeSrc src).length = 0 ∨ dest = "" then
    Except.error "`src` and `dest` are required"
  else
    Except.ok ((glob (normalizeSrc src) opts.cwd).flatMap (fun p =>
      [FSAction.mkdirRecursive (NodePath.dirname (toPathOf opts dest p)),
       FSAction.copyFile (fromPathOf opts.cwd p) (toPathOf opts dest p)]))

/-- A CopyOption whose rename uppercases the base filename, used to check the
specification's rename example. -/
def copyUpper : CopyOption :=
  { rename := fun s => String.mk (s.data.map Char.toUpper) }

theorem foldl_renderOne (xs : List EnvVar) (a : String) :
    xs.foldl (fun prev env => prev ++ renderOne env) a = a ++ renderEnvVar xs := by
  induction xs generalizing a with
  | nil => simp [renderEnvVar]
  | cons x t ih =>
    simp only [renderEnvVar, List.foldl_cons]
    rw [ih ("" ++ renderOne x), ih (a ++ renderOne x), String.empty_append, String.append_assoc]

theorem renderEnvVar_cons (x : EnvVar) (t : List EnvVar) :
    renderEnvVar (x :: t) = renderOne x ++ renderEnvVar t := by
  simp only [renderEnvVar, List.foldl_cons]
  rw [foldl_renderOne, String.empty_append]
  rfl

theorem renderEnvVar_singleton (e : EnvVar) : renderEnvVar [e] = renderOne e := by
  rw [renderEnvVar_cons]
  exact String.append_empty _

theorem renderEnvVar_append (xs ys : List EnvVar) :
    renderEnvVar (xs ++ ys) = renderEnvVar xs ++ renderEnvVar ys := by
  induction xs with
  | nil =>
    rw [List.nil_append]
    exact (String.empty_append _).symm
  | cons x t ih =>
    rw [List.cons_append, renderEnvVar_cons, ih, renderEnvVar_cons, String.append_assoc]

theorem splitOnChar_ne_nil (c : Char) (l : List Char) : splitOnChar c l ≠ [] := by
  cases l with
  | nil => simp [splitOnChar]
  | cons a rest =>
    simp only [splitOnChar]
    cases h : splitOnChar c rest with
    | nil => simp
    | cons hd tl =>
      simp only [h]
      split <;> simp

theorem joinSep_hash_lines (l : List String) (h : l ≠ []) :
    "# " ++ joinSep "\n# " l = joinSep "\n" (l.map (fun s => "# " ++ s)) := by
  induction l with
  | nil => exact absurd rfl h
  | cons a t ih =>
    cases t with
    | nil => rfl
    | cons b t2 =>
      have ih2 := ih (by simp)
      simp only [joinSep, List.map_cons] at ih2 ⊢
      rw [← ih2]
      have hsep : ("\n# " : String) = "\n" ++ "# " := by decide
      rw [hsep]
      simp only [String.append_assoc]

/-- C1: for an entry whose name is present (truthy), render emits the
assignment line followed by a blank line when the value is truthy, and the
commented placeholder followed by a blank line when the value is absent or
the empty string, in both cases after the entry's description part. -/
theorem render_name_value_cases (e : EnvVar) (n : String)
    (hn : e.name = some n) (hne : n ≠ "") :
    ((e.value = none ∨ e.value = some "") →
      renderEnvVar [e] = descRender e ++ ("# " ++ n ++ "=\n\n"))
    ∧ (∀ v, e.value = some v → v ≠ "" →
      renderEnvVar [e] = descRender e ++ (n ++ "=" ++ v ++ "\n\n")) := by
  refine ⟨fun hv => ?_, fun v hv hvne => ?_⟩
  · rw [renderEnvVar_singleton]
    unfold renderOne
    congr 1
    unfold nameValueRender
    rcases hv with hv | hv <;> simp [hn, hv, truthy, hne]
  · rw [renderEnvVar_singleton]
    unfold renderOne
    congr 1
    unfold nameValueRender
    simp [hn, hv, truthy, hne, hvne]

theorem render_name_value_cases_witness :
    renderEnvVar [{ name := some "X", value := some "Y" }] = "X=Y\n\n"
    ∧ renderEnvVar [{ name := some "X" }] = "# X=\n\n" := by
  constructor
  · have h := (render_name_value_cases { name := some "X", value := some "Y" }
      "X" rfl (by decide)).2 "Y" rfl (by decide)
    exact h.trans (by decide)
  · have h := (render_name_value_cases { name := some "X" }
      "X" rfl (by decide)).1 (Or.inl rfl)
    exact h.trans (by decide)

/-- C2: render is a monoid homomorphism from list concatenation to string
concatenation, hence a pure order-preserving fold with no reordering or
deduplication of duplicate names. -/
theorem render_append_hom (xs ys : List EnvVar) :
    renderEnvVar (xs ++ ys) = renderEnvVar xs ++ renderEnvVar ys :=
  renderEnvVar_append xs ys

/-- C3: copy fails with the InvalidArgument TypeError when the normalized
source-pattern list is empty or the destination is empty, and it does so for
every glob oracle alike — the validation precedes any filesystem access, so
no glob expansion, directory creation or file copy is planned. -/
theorem copy_invalid_args (glob : List String → Option String → List String)
    (src : Src) (dest : String) (opts : CopyOption)
    (h : (normalizeSrc src).length = 0 ∨ dest = "") :
    copy glob src dest opts = Except.error "`src` and `dest` are required" := by
  unfold copy
  rw [if_pos h]

theorem copy_invalid_args_witness :
    copy (fun _ _ => ["a.txt"]) (Src.many ["*.txt"]) "" {}
      = Except.error "`src` and `dest` are required"
    ∧ copy (fun _ _ => ["a.txt"]) (Src.many []) "out" {}
      = Except.error "`src` and `dest` are required" :=
  ⟨copy_invalid_args _ _ _ _ (Or.inr rfl), copy_invalid_args _ _ _ _ (Or.inl rfl)⟩

/-- C4: for every matched source path p, the planned copy action's
destination is the destination root joined with dirname p and the renamed
basename when parents is true, and the destination root joined with the
renamed basename (flattening) when parents is false; the rename function
touches only the base filename, never the directory segments. -/
theorem copy_dest_path (glob : List String → Option String → List String)
    (src : Src) (dest : String) (opts : CopyOption)
    (h : ¬((normalizeSrc src).length = 0 ∨ dest = ""))
    (p : String) (hp : p ∈ glob (normalizeSrc src) opts.cwd) :
    ∃ acts, copy glob src dest opts = Except.ok acts
      ∧ FSAction.copyFile (fromPathOf opts.cwd p)
          (if opts.parents then
            NodePath.join [destRootOf opts.cwd dest, NodePath.dirname p,
              opts.rename (NodePath.basename p)]
          else
            NodePath.join [destRootOf opts.cwd dest,
              opts.rename (NodePath.basename p)]) ∈ acts := by
  have hok : copy glob src dest opts
      = Except.ok ((glob (normalizeSrc src) opts.cwd).flatMap (fun q =>
        [FSAction.mkdirRecursive (NodePath.dirname (toPathOf opts dest q)),
         FSAction.copyFile (fromPathOf opts.cwd q) (toPathOf opts dest q)])) := by
    unfold copy
    rw [if_neg h]
  refine ⟨_, hok, ?_⟩
  rw [List.mem_flatMap]
  exact ⟨p, hp, by simp [toPathOf]⟩

theorem copy_dest_path_witness :
    ∃ acts, copy (fun _ _ => ["a/b.txt"]) (Src.many ["a/*"]) "out" copyUpper
        = Except.ok acts
      ∧ FSAction.copyFile "a/b.txt" "out/a/B.TXT" ∈ acts := by
  obtain ⟨acts, h1, h2⟩ := copy_dest_path (fun _ _ => ["a/b.txt"])
    (Src.many ["a/*"]) "out" copyUpper (by decide) "a/b.txt" (by simp)
  refine ⟨acts, h1, ?_⟩
  have he : (if copyUpper.parents then
        NodePath.join [destRootOf copyUpper.cwd "out", NodePath.dirname "a/b.txt",
          copyUpper.rename (NodePath.basename "a/b.txt")]
      else
        NodePath.join [destRootOf copyUpper.cwd "out",
          copyUpper.rename (NodePath.basename "a/b.txt")]) = "out/a/B.TXT" := by decide
  rw [he] at h2
  exact h2

/-- C5: an entry whose description is present renders its description as
comment lines, one per newline-separated piece, each prefixed with the
comment marker and joined by single newlines, before the entry's
name/value part. -/
theorem render_description_lines (e : EnvVar) (d : String)
    (hd : e.description = some d) (hne : d ≠ "") :
    renderEnvVar [e] =
      (joinSep "\n" (((splitOnChar '\n' d.data).map String.mk).map
        (fun l => "# " ++ l)) ++ "\n") ++ nameValueRender e := by
  rw [renderEnvVar_singleton]
  unfold renderOne
  congr 1
  unfold descRender
  rw [hd]
  have htr : truthy (some d) = true := by simp [truthy, hne]
  rw [htr]
  simp only [if_true, Option.getD_some]
  rw [← joinSep_hash_lines _ (by simpa using splitOnChar_ne_nil '\n' d.data)]
  rfl

theorem render_description_lines_witness :
    renderEnvVar [{ description := some "a\nb" }] = "# a\n# b\n" := by
  have h := render_description_lines { description := some "a\nb" } "a\nb" rfl (by decide)
  exact h.trans (by decide)

/-- C6: a sequence of descriptors in which every entry has neither a name
nor a description renders to the empty string. -/
theorem render_empty_descriptors (xs : List EnvVar)
    (h : ∀ e ∈ xs, e.name = none ∧ e.description = none) :
    renderEnvVar xs = "" := by
  induction xs with
  | nil => rfl
  | cons x t ih =>
    rw [renderEnvVar_cons]
    have hx := h x (List.mem_cons_self x t)
    have ht := ih (fun e he => h e (List.mem_cons_of_mem x he))
    rw [ht, String.append_empty]
    unfold renderOne descRender nameValueRender
    rw [hx.1, hx.2]
    rfl

theorem render_empty_descriptors_witness :
    renderEnvVar [{ value := some "v" }, {}] = "" :=
  render_empty_descriptors [{ value := some "v" }, {}] (by decide)

/-- C7: the vector-database mapping is a closed enumeration: the four
recognized identifiers map to their fixed hardcoded descriptor lists (here
checked through the rendered variable names), and every other identifier
maps to the empty list rather than an error. -/
theorem vectorDBEnvs_closed_enum :
    ((getVectorDBEnvs "mongo").map EnvVar.name =
        [some "MONGO_URI", some "MONGODB_DATABASE", some "MONGODB_VECTORS",
          some "MONGODB_VECTOR_INDEX"]
      ∧ (getVectorDBEnvs "pg").map EnvVar.name = [some "PG_CONNECTION_STRING"]
      ∧ (getVectorDBEnvs "pinecone").map EnvVar.name =
        [some "PINECONE_API_KEY", some "PINECONE_ENVIRONMENT", some "PINECONE_INDEX_NAME"]
      ∧ (getVectorDBEnvs "milvus").map EnvVar.name =
        [some "MILVUS_ADDRESS", some "MILVUS_COLLECTION", some "MILVUS_USERNAME",
          some "MILVUS_PASSWORD"])
    ∧ ∀ s : String, s ∉ ["mongo", "pg", "pinecone", "milvus"] → getVectorDBEnvs s = [] := by
  refine ⟨⟨by decide, by decide, by decide, by decide⟩, fun s hs => ?_⟩
  simp only [List.mem_cons, List.not_mem_nil, or_false, not_or] at hs
  obtain ⟨h1, h2, h3, h4⟩ := hs
  unfold getVectorDBEnvs
  rw [if_neg h1, if_neg h2, if_neg h3, if_neg h4]

theorem vectorDBEnvs_closed_enum_witness : getVectorDBEnvs "none" = [] :=
  vectorDBEnvs_closed_enum.2 "none" (by decide)

/-- C8: when the options carry no model name, the MODEL descriptor's value
falls back to the literal gpt-3.5-turbo, so the rendered backend .env
content starts with the MODEL comment and the line MODEL=gpt-3.5-turbo
followed by a blank line. -/
theorem backend_model_default (opts : BackendOpts) (h : opts.model = none) :
    ∃ rest, backendEnvContent opts =
      "# The name of LLM model to use.\n" ++ "MODEL=gpt-3.5-turbo\n\n" ++ rest := by
  have hsplit : ∃ tail, backendEnvVars opts =
      ({ name := some "MODEL"
         description := some "The name of LLM model to use."
         value := some (jsOrElse opts.model "gpt-3.5-turbo") } : EnvVar) :: tail := by
    unfold backendEnvVars defaultEnvs
    split
    · exact ⟨_, rfl⟩
    · exact ⟨_, rfl⟩
  obtain ⟨tail, htail⟩ := hsplit
  refine ⟨renderEnvVar tail, ?_⟩
  unfold backendEnvContent
  rw [htail, renderEnvVar_cons, h]
  have hone : renderOne
      { name := some "MODEL"
        description := some "The name of LLM model to use."
        value := some (jsOrElse none "gpt-3.5-turbo") } =
      "# The name of LLM model to use.\n" ++ "MODEL=gpt-3.5-turbo\n\n" := by decide
  rw [hone, String.append_assoc]

theorem backend_model_default_witness :
    ∃ rest, backendEnvContent {} =
      "# The name of LLM model to use.\n" ++ "MODEL=gpt-3.5-turbo\n\n" ++ rest :=
  backend_model_default {} rfl

/-- C9: presence of name and description is decided by truthiness, so a
descriptor with an empty-string description renders exactly as one with no
description, a descriptor with an empty-string name renders exactly as one
with no name, and an entry with both fields empty renders to nothing
whatever its value. -/
theorem render_empty_string_fields (n d v : Option String) :
    renderEnvVar [{ name := n, description := some "", value := v }]
      = renderEnvVar [{ name := n, description := none, value := v }]
    ∧ renderEnvVar [{ name := some "", description := d, value := v }]
      = renderEnvVar [{ name := none, description := d, value := v }]
    ∧ renderEnvVar [{ name := some "", description := some "", value := v }] = "" := by
  refine ⟨?_, ?_, ?_⟩
  · rw [renderEnvVar_singleton, renderEnvVar_singleton]
    rfl
  · rw [renderEnvVar_singleton, renderEnvVar_singleton]
    rfl
  · rw [renderEnvVar_singleton]
    rfl

/-- C10: for any framework selector other than fastapi and nextjs, including
an absent one, the assembled sequence is the default descriptors plus one
empty descriptor, and the rendered content equals the render of the default
descriptors (which already include the vector-database block). -/
theorem backend_other_framework (opts : BackendOpts)
    (h1 : opts.framework ≠ some "fastapi") (h2 : opts.framework ≠ some "nextjs") :
    backendEnvVars opts = defaultEnvs opts ++ [emptyEnvVar]
    ∧ backendEnvContent opts = renderEnvVar (defaultEnvs opts) := by
  have hv : backendEnvVars opts = defaultEnvs opts ++ [emptyEnvVar] := by
    unfold backendEnvVars
    rw [if_neg h1, if_neg h2]
  refine ⟨hv, ?_⟩
  unfold backendEnvContent
  rw [hv, renderEnvVar_append]
  have h0 : renderEnvVar [emptyEnvVar] = "" := rfl
  rw [h0, String.append_empty]

theorem backend_other_framework_witness :
    backendEnvVars { framework := some "express" }
      = defaultEnvs { framework := some "express" } ++ [emptyEnvVar]
    ∧ backendEnvContent { framework := some "express" }
      = renderEnvVar (defaultEnvs { framework := some "express" }) :=
  backend_other_framework { framework := some "express" } (by decide) (by decide)
